import Mathlib

/-!
Verification of the X-Racer flight-physics and race-progression engine.

The embedded code is the per-frame game loop and the race-start handler of
`src/App.tsx` (`GameLoop`'s `useFrame` callback and `handleStart`), together
with the data model of `src/types.ts`.

Modelling conventions:
* JavaScript numbers are modelled as rationals (`ℚ`).
* `THREE.Vector3` / `THREE.Euler` become explicit records of rationals.
* `applyEuler` (the trigonometric rotation of a vector by the three Euler
  angles) is passed as an abstract function parameter: no property verified
  here depends on the concrete rotation matrix.
* The three comparisons against a square root in the source
  (`distanceTo(...) < r`, `length() > 150`, `distanceTo(...) > 0.1`) are
  embedded as the equivalent comparisons on squared distances (`sqrtLt`,
  `sqrtGt` below); the lemmas `sqrtLt_iff_sqrt` and `sqrtGt_iff_sqrt`
  prove the encodings equivalent to the `Real.sqrt` comparisons.
-/

namespace XRacer

/-- Model of `THREE.Vector3`, components as rationals. -/
structure Vec3 where
  x : ℚ
  y : ℚ
  z : ℚ
deriving DecidableEq, Repr

/-- Model of `THREE.Euler` (rotation angles around x, y, z). -/
structure Euler where
  x : ℚ
  y : ℚ
  z : ℚ
deriving DecidableEq, Repr

namespace Vec3

/-- Embeds `Vector3.add`. -/
def add (a b : Vec3) : Vec3 := ⟨a.x + b.x, a.y + b.y, a.z + b.z⟩

/-- Embeds `Vector3.sub`. -/
def sub (a b : Vec3) : Vec3 := ⟨a.x - b.x, a.y - b.y, a.z - b.z⟩

/-- Embeds `Vector3.multiplyScalar`. -/
def smul (s : ℚ) (v : Vec3) : Vec3 := ⟨s * v.x, s * v.y, s * v.z⟩

/-- Squared Euclidean norm (`Vector3.lengthSq`); `Vector3.length` is its
square root. -/
def normSq (v : Vec3) : ℚ := v.x ^ 2 + v.y ^ 2 + v.z ^ 2

/-- Squared distance (`Vector3.distanceToSquared`); `Vector3.distanceTo`
is its square root. -/
def distSq (a b : Vec3) : ℚ := (a.sub b).normSq

/-- Embeds `Vector3.lerp(v, alpha)`: componentwise `this + (v - this) * alpha`. -/
def lerp (a b : Vec3) (t : ℚ) : Vec3 :=
  ⟨a.x + (b.x - a.x) * t, a.y + (b.y - a.y) * t, a.z + (b.z - a.z) * t⟩

end Vec3

/-- Encoding of `Real.sqrt d < r` for a squared quantity `d ≥ 0`:
true iff `r` is positive and `d < r²` (see `sqrtLt_iff_sqrt`). -/
def sqrtLt (d r : ℚ) : Prop := 0 < r ∧ d < r ^ 2

instance (d r : ℚ) : Decidable (sqrtLt d r) :=
  inferInstanceAs (Decidable (0 < r ∧ d < r ^ 2))

/-- Encoding of `r < Real.sqrt d` for a squared quantity `d ≥ 0` and a
nonnegative threshold `r`: true iff `r² < d` (see `sqrtGt_iff_sqrt`). -/
def sqrtGt (d r : ℚ) : Prop := r ^ 2 < d

instance (d r : ℚ) : Decidable (sqrtGt d r) :=
  inferInstanceAs (Decidable (r ^ 2 < d))

-- --- Physics & Logic Constants (App.tsx) ---

def DRAG : ℚ := 0.94
def ROTATION_SPEED : ℚ := 0.04
def THRUST_POWER : ℚ := 0.03
def GATE_DETECTION_RADIUS : ℚ := 1.2

-- --- Data model (types.ts) ---

/-- Record `ShipStats` of `types.ts`. -/
structure ShipStats where
  speed : ℚ
  durability : ℚ
  handling : ℚ
deriving DecidableEq, Repr

/-- Record `ControlState` of `types.ts`. -/
structure ControlState where
  throttle : ℚ
  yaw : ℚ
  pitch : ℚ
  roll : ℚ
deriving DecidableEq, Repr

/-- Record `GameState` of `types.ts`. -/
structure GameState where
  isPlaying : Bool
  score : ℕ
  time : ℚ
  currentGate : ℕ
  totalGates : ℕ
  briefing : String
  isGameOver : Bool
deriving DecidableEq, Repr

/-- The craft pose held in `GameLoop`'s refs: `velocity`, `position`,
`rotation`. -/
structure CraftState where
  velocity : Vec3
  position : Vec3
  rotation : Euler
deriving DecidableEq, Repr

/-- Camera pose produced by the camera-handling block: a position and the
`lookAt` target. -/
structure CameraPose where
  position : Vec3
  lookTarget : Vec3
deriving DecidableEq, Repr

-- --- Per-frame update (GameLoop's useFrame body) ---

/-- Physics integration steps of the frame callback: thrust along the
pre-update forward vector, per-axis rotation update, drag, position
integration.  `applyEuler` abstracts `THREE.Vector3.applyEuler`. -/
def integrate (applyEuler : Euler → Vec3 → Vec3) (craft : CraftState)
    (controls : ControlState) (stats : ShipStats) : CraftState :=
  let forward := applyEuler craft.rotation ⟨0, 0, -1⟩
  let thrust := Vec3.smul (controls.throttle * THRUST_POWER * (stats.speed / 5)) forward
  let vel1 := craft.velocity.add thrust
  let rot : Euler :=
    ⟨craft.rotation.x + controls.pitch * ROTATION_SPEED * (stats.handling / 5),
     craft.rotation.y - controls.yaw * ROTATION_SPEED * (stats.handling / 5),
     craft.rotation.z - controls.roll * ROTATION_SPEED * (stats.handling / 5)⟩
  let vel2 := Vec3.smul DRAG vel1
  ⟨vel2, craft.position.add vel2, rot⟩

/-- Boundary enforcement block.  In AR (confined) mode each axis is clamped
independently (`Math.min(hi, Math.max(lo, v))`); otherwise a position whose
length exceeds 150 is reset to the spawn point with zero velocity. -/
def enforce (craft : CraftState) (arEnabled : Bool) : CraftState :=
  if arEnabled then
    { craft with position :=
        ⟨min 15 (max (-15) craft.position.x),
         min 10 (max 0.2 craft.position.y),
         min (-2) (max (-40) craft.position.z)⟩ }
  else
    if sqrtGt craft.position.normSq 150 then
      { craft with position := ⟨0, 1.5, -8⟩, velocity := ⟨0, 0, 0⟩ }
    else
      craft

/-- Gate-detection block: look up the gate at `currentGate` (`undefined`
when out of range, modelled by `Option`), and when the craft is within the
scaled detection radius either finish the race (last gate) or advance the
gate index and score. -/
def gateStep (gs : GameState) (pos : Vec3) (gateList : List Vec3)
    (shipScale : ℚ) : GameState :=
  match gateList.get? gs.currentGate with
  | none => gs
  | some g =>
    if sqrtLt (pos.distSq g) (GATE_DETECTION_RADIUS * (shipScale + 0.5)) then
      if gs.currentGate = gateList.length - 1 then
        { gs with isGameOver := true, isPlaying := false }
      else
        { gs with currentGate := gs.currentGate + 1, score := gs.score + 100 }
    else
      gs

/-- Camera-handling block.  In AR mode the camera is pinned at
`(0, 1.6, 0)` and looks at the craft unless the craft is within 0.1 of the
camera; otherwise the camera position is lerped toward the craft position
plus the rotated offset `(0, 1.5, 6)` and looks at the craft. -/
def cameraStep (applyEuler : Euler → Vec3 → Vec3) (cam : CameraPose)
    (craft : CraftState) (arEnabled : Bool) : CameraPose :=
  if arEnabled then
    let camPos : Vec3 := ⟨0, 1.6, 0⟩
    if sqrtGt (craft.position.distSq camPos) 0.1 then
      ⟨camPos, craft.position⟩
    else
      ⟨camPos, cam.lookTarget⟩
  else
    let camOffset := applyEuler craft.rotation ⟨0, 1.5, 6⟩
    ⟨cam.position.lerp (craft.position.add camOffset) 0.12, craft.position⟩

/-- Result of one frame callback. -/
structure FrameResult where
  game : GameState
  craft : CraftState
  camera : CameraPose
deriving DecidableEq, Repr

/-- One invocation of `GameLoop`'s `useFrame` callback: early return unless
racing, then physics integration, boundary enforcement, gate detection and
camera handling, in source order. -/
def frameStep (applyEuler : Euler → Vec3 → Vec3) (gs : GameState)
    (craft : CraftState) (controls : ControlState) (stats : ShipStats)
    (shipScale : ℚ) (gateList : List Vec3) (arEnabled : Bool)
    (cam : CameraPose) : FrameResult :=
  if !gs.isPlaying || gs.isGameOver then ⟨gs, craft, cam⟩
  else
    let c1 := integrate applyEuler craft controls stats
    let c2 := enforce c1 arEnabled
    ⟨gateStep gs c2.position gateList shipScale, c2,
     cameraStep applyEuler cam c2 arEnabled⟩

-- --- Race start (App.tsx handleStart) ---

/-- The `handleStart` handler, folded over its two `setGameState` calls (`briefing` is
the text eventually returned by the external narrative service, passed in
as a parameter).  It updates only the game state: the craft refs held by
`GameLoop` are not touched (`setShowConfig` is UI-only state outside the
engine and is omitted). -/
def handleStart (gs : GameState) (craft : CraftState) (briefing : String) :
    GameState × CraftState :=
  ({ gs with isPlaying := true, briefing := briefing, currentGate := 0,
             score := 0, time := 0, isGameOver := false }, craft)

-- --- Session constants of App.tsx ---

/-- The `gates` course layout of `App`. -/
def gates : List Vec3 :=
  [⟨0, 1.8, -12⟩, ⟨10, 3, -25⟩, ⟨-8, 1.5, -40⟩, ⟨5, 5, -55⟩, ⟨0, 2, -75⟩]

/-- Initial `gameState` of `App`. -/
def initialGameState : GameState :=
  ⟨false, 0, 0, 0, 5, "System Check: Green. Awaiting Ignition.", false⟩

/-- Spawn position `(0, 1.5, -8)` (initial value of the `position` ref and
free-mode reset target). -/
def spawnPosition : Vec3 := ⟨0, 1.5, -8⟩

-- --- Supporting lemmas ---

/-- The `sqrtLt` encoding agrees with the square-root comparison of the
source (`distanceTo(...) < r`). -/
theorem sqrtLt_iff_sqrt (d r : ℚ) : sqrtLt d r ↔ Real.sqrt (d : ℝ) < (r : ℝ) := by
  constructor
  · rintro ⟨hr, hd⟩
    have hr' : (0 : ℝ) < (r : ℝ) := by exact_mod_cast hr
    exact (Real.sqrt_lt' hr').mpr (by exact_mod_cast hd)
  · intro h
    have hr' : (0 : ℝ) < (r : ℝ) := lt_of_le_of_lt (Real.sqrt_nonneg _) h
    refine ⟨by exact_mod_cast hr', ?_⟩
    exact_mod_cast (Real.sqrt_lt' hr').mp h

/-- The `sqrtGt` encoding agrees with the square-root comparison of the
source (`length() > r`, `distanceTo(...) > r`) for nonnegative `r`. -/
theorem sqrtGt_iff_sqrt (d r : ℚ) (hr : 0 ≤ r) :
    sqrtGt d r ↔ (r : ℝ) < Real.sqrt (d : ℝ) := by
  rw [Real.lt_sqrt (by exact_mod_cast hr : (0 : ℝ) ≤ (r : ℝ))]
  constructor
  · intro h
    exact_mod_cast h
  · intro h
    exact_mod_cast h

theorem normSq_nonneg (v : Vec3) : 0 ≤ v.normSq := by
  unfold Vec3.normSq
  positivity

theorem normSq_eq_zero_iff (v : Vec3) : v.normSq = 0 ↔ v = ⟨0, 0, 0⟩ := by
  obtain ⟨x, y, z⟩ := v
  unfold Vec3.normSq
  constructor
  · intro h
    have hx : x = 0 := by nlinarith [sq_nonneg x, sq_nonneg y, sq_nonneg z]
    have hy : y = 0 := by nlinarith [sq_nonneg x, sq_nonneg y, sq_nonneg z]
    have hz : z = 0 := by nlinarith [sq_nonneg x, sq_nonneg y, sq_nonneg z]
    simp [hx, hy, hz]
  · intro h
    injection h with hx hy hz
    subst_vars
    norm_num

theorem normSq_smul (s : ℚ) (v : Vec3) :
    (Vec3.smul s v).normSq = s ^ 2 * v.normSq := by
  unfold Vec3.smul Vec3.normSq
  ring

theorem add_zero_vec (v : Vec3) : v.add ⟨0, 0, 0⟩ = v := by
  unfold Vec3.add
  simp

theorem clamp_mem (lo hi v : ℚ) (h : lo ≤ hi) :
    lo ≤ min hi (max lo v) ∧ min hi (max lo v) ≤ hi :=
  ⟨le_min h (le_max_left _ _), min_le_left _ _⟩

theorem clamp_low (lo hi v : ℚ) (h : lo ≤ hi) (hv : v < lo) :
    min hi (max lo v) = lo := by
  rw [max_eq_left hv.le, min_eq_right h]

theorem clamp_high (lo hi v : ℚ) (h : lo ≤ hi) (hv : hi < v) :
    min hi (max lo v) = hi := by
  rw [max_eq_right (h.trans hv.le), min_eq_left hv.le]

theorem clamp_id (lo hi v : ℚ) (h1 : lo ≤ v) (h2 : v ≤ hi) :
    min hi (max lo v) = v := by
  rw [max_eq_right h1, min_eq_right h2]

theorem enforce_confined_position (craft : CraftState) :
    (enforce craft true).position =
      ⟨min 15 (max (-15) craft.position.x),
       min 10 (max 0.2 craft.position.y),
       min (-2) (max (-40) craft.position.z)⟩ := by
  simp [enforce]

theorem enforce_confined_velocity (craft : CraftState) :
    (enforce craft true).velocity = craft.velocity := by
  simp [enforce]

-- --- Claim theorems ---

/-- C3: in confined (AR) mode, boundary enforcement clamps each position
axis independently into `z ∈ [-40,-2]`, `x ∈ [-15,15]`, `y ∈ [0.2,10]` by
saturation (a value beyond a bound is set exactly to that bound, a value in
range is kept), and the velocity is not modified. -/
theorem confined_clamp (craft : CraftState) :
    (-40 ≤ (enforce craft true).position.z ∧ (enforce craft true).position.z ≤ -2) ∧
    (-15 ≤ (enforce craft true).position.x ∧ (enforce craft true).position.x ≤ 15) ∧
    (0.2 ≤ (enforce craft true).position.y ∧ (enforce craft true).position.y ≤ 10) ∧
    (craft.position.z < -40 → (enforce craft true).position.z = -40) ∧
    (-2 < craft.position.z → (enforce craft true).position.z = -2) ∧
    (craft.position.x < -15 → (enforce craft true).position.x = -15) ∧
    (15 < craft.position.x → (enforce craft true).position.x = 15) ∧
    (craft.position.y < 0.2 → (enforce craft true).position.y = 0.2) ∧
    (10 < craft.position.y → (enforce craft true).position.y = 10) ∧
    (-40 ≤ craft.position.z → craft.position.z ≤ -2 →
      (enforce craft true).position.z = craft.position.z) ∧
    (-15 ≤ craft.position.x → craft.position.x ≤ 15 →
      (enforce craft true).position.x = craft.position.x) ∧
    (0.2 ≤ craft.position.y → craft.position.y ≤ 10 →
      (enforce craft true).position.y = craft.position.y) ∧
    (enforce craft true).velocity = craft.velocity := by
  rw [enforce_confined_position, enforce_confined_velocity]
  refine ⟨⟨?_, ?_⟩, ⟨?_, ?_⟩, ⟨?_, ?_⟩, ?_, ?_, ?_, ?_, ?_, ?_, ?_, ?_, ?_, rfl⟩
  · exact (clamp_mem (-40) (-2) craft.position.z (by norm_num)).1
  · exact (clamp_mem (-40) (-2) craft.position.z (by norm_num)).2
  · exact (clamp_mem (-15) 15 craft.position.x (by norm_num)).1
  · exact (clamp_mem (-15) 15 craft.position.x (by norm_num)).2
  · exact (clamp_mem 0.2 10 craft.position.y (by norm_num)).1
  · exact (clamp_mem 0.2 10 craft.position.y (by norm_num)).2
  · exact fun h => clamp_low (-40) (-2) craft.position.z (by norm_num) h
  · exact fun h => clamp_high (-40) (-2) craft.position.z (by norm_num) h
  · exact fun h => clamp_low (-15) 15 craft.position.x (by norm_num) h
  · exact fun h => clamp_high (-15) 15 craft.position.x (by norm_num) h
  · exact fun h => clamp_low 0.2 10 craft.position.y (by norm_num) h
  · exact fun h => clamp_high 0.2 10 craft.position.y (by norm_num) h
  · exact fun h1 h2 => clamp_id (-40) (-2) craft.position.z h1 h2
  · exact fun h1 h2 => clamp_id (-15) 15 craft.position.x h1 h2
  · exact fun h1 h2 => clamp_id 0.2 10 craft.position.y h1 h2

/-- Witness for C3 at the craft position `(20, 15, -50)`. -/
theorem confined_clamp_witness :
    (-40 ≤ (enforce ⟨⟨1, 2, 3⟩, ⟨20, 15, -50⟩, ⟨0, 0, 0⟩⟩ true).position.z ∧
      (enforce ⟨⟨1, 2, 3⟩, ⟨20, 15, -50⟩, ⟨0, 0, 0⟩⟩ true).position.z ≤ -2) ∧
    (enforce ⟨⟨1, 2, 3⟩, ⟨20, 15, -50⟩, ⟨0, 0, 0⟩⟩ true).position.x = 15 ∧
    (enforce ⟨⟨1, 2, 3⟩, ⟨20, 15, -50⟩, ⟨0, 0, 0⟩⟩ true).position.y = 10 ∧
    (enforce ⟨⟨1, 2, 3⟩, ⟨20, 15, -50⟩, ⟨0, 0, 0⟩⟩ true).velocity = ⟨1, 2, 3⟩ := by
  obtain ⟨hA1, hA2, hA3, hB1, hB2, hB3, hB4, hB5, hB6, hC1, hC2, hC3, hD⟩ :=
    confined_clamp ⟨⟨1, 2, 3⟩, ⟨20, 15, -50⟩, ⟨0, 0, 0⟩⟩
  exact ⟨hA1, hB4 (by norm_num), hB6 (by norm_num), hD⟩

/-- C4: in free mode, a position farther than 150 from the origin is reset
to the spawn point `(0, 1.5, -8)` with zero velocity; otherwise enforcement
changes nothing. -/
theorem free_mode_reset (craft : CraftState) :
    (sqrtGt craft.position.normSq 150 →
      (enforce craft false).position = ⟨0, 1.5, -8⟩ ∧
      (enforce craft false).velocity = ⟨0, 0, 0⟩) ∧
    (¬ sqrtGt craft.position.normSq 150 → enforce craft false = craft) := by
  constructor
  · intro h
    simp [enforce, h]
  · intro h
    simp [enforce, h]

/-- Witness for C4 at the out-of-range position `(200, 0, 0)`. -/
theorem free_mode_reset_witness :
    (enforce ⟨⟨3, 0, 0⟩, ⟨200, 0, 0⟩, ⟨0, 0, 0⟩⟩ false).position = ⟨0, 1.5, -8⟩ ∧
    (enforce ⟨⟨3, 0, 0⟩, ⟨200, 0, 0⟩, ⟨0, 0, 0⟩⟩ false).velocity = ⟨0, 0, 0⟩ :=
  (free_mode_reset ⟨⟨3, 0, 0⟩, ⟨200, 0, 0⟩, ⟨0, 0, 0⟩⟩).1
    (by norm_num [sqrtGt, Vec3.normSq])

/-- C5: with all-zero stick input the integrator leaves the orientation
unchanged, and drag strictly decreases the velocity magnitude (a zero
velocity stays zero). -/
theorem drag_decay (applyE : Euler → Vec3 → Vec3) (craft : CraftState)
    (stats : ShipStats) :
    (craft.velocity ≠ ⟨0, 0, 0⟩ →
      Real.sqrt (((integrate applyE craft ⟨0, 0, 0, 0⟩ stats).velocity.normSq : ℚ) : ℝ) <
        Real.sqrt ((craft.velocity.normSq : ℚ) : ℝ)) ∧
    (craft.velocity = ⟨0, 0, 0⟩ →
      (integrate applyE craft ⟨0, 0, 0, 0⟩ stats).velocity = ⟨0, 0, 0⟩) ∧
    (integrate applyE craft ⟨0, 0, 0, 0⟩ stats).rotation = craft.rotation := by
  have hv : (integrate applyE craft ⟨0, 0, 0, 0⟩ stats).velocity
      = Vec3.smul DRAG craft.velocity := by
    simp [integrate, Vec3.smul, Vec3.add]
  have hr : (integrate applyE craft ⟨0, 0, 0, 0⟩ stats).rotation = craft.rotation := by
    simp [integrate]
  refine ⟨?_, ?_, hr⟩
  · intro hne
    have hpos : 0 < craft.velocity.normSq :=
      lt_of_le_of_ne (normSq_nonneg _)
        (fun h => hne ((normSq_eq_zero_iff _).mp h.symm))
    rw [hv, normSq_smul]
    have hlt : DRAG ^ 2 * craft.velocity.normSq < craft.velocity.normSq := by
      simp only [DRAG]
      nlinarith [hpos]
    apply Real.sqrt_lt_sqrt
    · exact_mod_cast mul_nonneg (by positivity) (normSq_nonneg craft.velocity)
    · exact_mod_cast hlt
  · intro h0
    rw [hv, h0]
    simp [Vec3.smul]

/-- Witness for C5 at velocity `(1, 0, 0)`. -/
theorem drag_decay_witness :
    Real.sqrt (((integrate (fun _ v => v) ⟨⟨1, 0, 0⟩, ⟨0, 1.5, -8⟩, ⟨0, 0, 0⟩⟩
        ⟨0, 0, 0, 0⟩ ⟨7, 4, 8⟩).velocity.normSq : ℚ) : ℝ) <
      Real.sqrt (((CraftState.velocity ⟨⟨1, 0, 0⟩, ⟨0, 1.5, -8⟩, ⟨0, 0, 0⟩⟩).normSq : ℚ) : ℝ) :=
  (drag_decay (fun _ v => v) ⟨⟨1, 0, 0⟩, ⟨0, 1.5, -8⟩, ⟨0, 0, 0⟩⟩ ⟨7, 4, 8⟩).1
    (by simp)

/-- While racing, one frame callback is physics integration, boundary
enforcement, gate detection and camera handling in sequence. -/
theorem frameStep_racing (applyE : Euler → Vec3 → Vec3) (gs : GameState)
    (craft : CraftState) (controls : ControlState) (stats : ShipStats)
    (shipScale : ℚ) (gateList : List Vec3) (ar : Bool) (cam : CameraPose)
    (hPlay : gs.isPlaying = true) (hOver : gs.isGameOver = false) :
    frameStep applyE gs craft controls stats shipScale gateList ar cam =
      ⟨gateStep gs (enforce (integrate applyE craft controls stats) ar).position
          gateList shipScale,
       enforce (integrate applyE craft controls stats) ar,
       cameraStep applyE cam (enforce (integrate applyE craft controls stats) ar) ar⟩ := by
  simp [frameStep, hPlay, hOver]

/-- C1: while racing, when the craft comes within the scaled detection
radius of the current gate and that gate is not the last one, the frame
advances `currentGate` by exactly 1, adds exactly 100 to `score`, and the
race stays in progress. -/
theorem gate_pass_increments (applyE : Euler → Vec3 → Vec3) (gs : GameState)
    (craft : CraftState) (controls : ControlState) (stats : ShipStats)
    (shipScale : ℚ) (gateList : List Vec3) (ar : Bool) (cam : CameraPose)
    (g : Vec3)
    (hPlay : gs.isPlaying = true) (hOver : gs.isGameOver = false)
    (hGate : gateList.get? gs.currentGate = some g)
    (hLast : gs.currentGate ≠ gateList.length - 1)
    (hDist : sqrtLt ((enforce (integrate applyE craft controls stats) ar).position.distSq g)
      (GATE_DETECTION_RADIUS * (shipScale + 0.5))) :
    (frameStep applyE gs craft controls stats shipScale gateList ar cam).game.currentGate
        = gs.currentGate + 1 ∧
    (frameStep applyE gs craft controls stats shipScale gateList ar cam).game.score
        = gs.score + 100 ∧
    (frameStep applyE gs craft controls stats shipScale gateList ar cam).game.isPlaying
        = true ∧
    (frameStep applyE gs craft controls stats shipScale gateList ar cam).game.isGameOver
        = false := by
  rw [frameStep_racing applyE gs craft controls stats shipScale gateList ar cam hPlay hOver]
  simp only [gateStep, hGate]
  rw [if_pos hDist, if_neg hLast]
  simp [hPlay, hOver]

/-- Witness for C1: the spec scenario — craft at `(0, 1.8, -12.05)`,
shipScale 1, gate 0 of the course at `(0, 1.8, -12)`. -/
theorem gate_pass_increments_witness :
    (frameStep (fun _ v => v) ⟨true, 0, 0, 0, 5, "", false⟩
        ⟨⟨0, 0, 0⟩, ⟨0, 1.8, -12.05⟩, ⟨0, 0, 0⟩⟩ ⟨0, 0, 0, 0⟩ ⟨7, 4, 8⟩ 1 gates false
        ⟨⟨0, 1.6, 5⟩, ⟨0, 0, 0⟩⟩).game.currentGate = 0 + 1 ∧
    (frameStep (fun _ v => v) ⟨true, 0, 0, 0, 5, "", false⟩
        ⟨⟨0, 0, 0⟩, ⟨0, 1.8, -12.05⟩, ⟨0, 0, 0⟩⟩ ⟨0, 0, 0, 0⟩ ⟨7, 4, 8⟩ 1 gates false
        ⟨⟨0, 1.6, 5⟩, ⟨0, 0, 0⟩⟩).game.score = 0 + 100 ∧
    (frameStep (fun _ v => v) ⟨true, 0, 0, 0, 5, "", false⟩
        ⟨⟨0, 0, 0⟩, ⟨0, 1.8, -12.05⟩, ⟨0, 0, 0⟩⟩ ⟨0, 0, 0, 0⟩ ⟨7, 4, 8⟩ 1 gates false
        ⟨⟨0, 1.6, 5⟩, ⟨0, 0, 0⟩⟩).game.isPlaying = true ∧
    (frameStep (fun _ v => v) ⟨true, 0, 0, 0, 5, "", false⟩
        ⟨⟨0, 0, 0⟩, ⟨0, 1.8, -12.05⟩, ⟨0, 0, 0⟩⟩ ⟨0, 0, 0, 0⟩ ⟨7, 4, 8⟩ 1 gates false
        ⟨⟨0, 1.6, 5⟩, ⟨0, 0, 0⟩⟩).game.isGameOver = false :=
  gate_pass_increments (fun _ v => v) ⟨true, 0, 0, 0, 5, "", false⟩
    ⟨⟨0, 0, 0⟩, ⟨0, 1.8, -12.05⟩, ⟨0, 0, 0⟩⟩ ⟨0, 0, 0, 0⟩ ⟨7, 4, 8⟩ 1 gates false
    ⟨⟨0, 1.6, 5⟩, ⟨0, 0, 0⟩⟩ ⟨0, 1.8, -12⟩ rfl rfl rfl (by norm_num [gates])
    (by norm_num [sqrtLt, enforce, integrate, sqrtGt, Vec3.add, Vec3.smul, Vec3.sub,
      Vec3.normSq, Vec3.distSq, DRAG, THRUST_POWER, ROTATION_SPEED, GATE_DETECTION_RADIUS])

/-- C2: while racing, when the craft comes within the scaled detection
radius of the current gate and that gate is the last one, the frame sets
`isGameOver` and clears `isPlaying`, and the score is left unchanged. -/
theorem final_gate_finishes (applyE : Euler → Vec3 → Vec3) (gs : GameState)
    (craft : CraftState) (controls : ControlState) (stats : ShipStats)
    (shipScale : ℚ) (gateList : List Vec3) (ar : Bool) (cam : CameraPose)
    (g : Vec3)
    (hPlay : gs.isPlaying = true) (hOver : gs.isGameOver = false)
    (hGate : gateList.get? gs.currentGate = some g)
    (hLast : gs.currentGate = gateList.length - 1)
    (hDist : sqrtLt ((enforce (integrate applyE craft controls stats) ar).position.distSq g)
      (GATE_DETECTION_RADIUS * (shipScale + 0.5))) :
    (frameStep applyE gs craft controls stats shipScale gateList ar cam).game.isGameOver
        = true ∧
    (frameStep applyE gs craft controls stats shipScale gateList ar cam).game.isPlaying
        = false ∧
    (frameStep applyE gs craft controls stats shipScale gateList ar cam).game.score
        = gs.score := by
  rw [frameStep_racing applyE gs craft controls stats shipScale gateList ar cam hPlay hOver]
  simp only [gateStep, hGate]
  rw [if_pos hDist, if_pos hLast]
  simp

/-- Witness for C2: craft at `(0, 2, -75.05)` near the final course gate
`(0, 2, -75)` with 300 points scored. -/
theorem final_gate_finishes_witness :
    (frameStep (fun _ v => v) ⟨true, 300, 0, 4, 5, "", false⟩
        ⟨⟨0, 0, 0⟩, ⟨0, 2, -75.05⟩, ⟨0, 0, 0⟩⟩ ⟨0, 0, 0, 0⟩ ⟨7, 4, 8⟩ 1 gates false
        ⟨⟨0, 1.6, 5⟩, ⟨0, 0, 0⟩⟩).game.isGameOver = true ∧
    (frameStep (fun _ v => v) ⟨true, 300, 0, 4, 5, "", false⟩
        ⟨⟨0, 0, 0⟩, ⟨0, 2, -75.05⟩, ⟨0, 0, 0⟩⟩ ⟨0, 0, 0, 0⟩ ⟨7, 4, 8⟩ 1 gates false
        ⟨⟨0, 1.6, 5⟩, ⟨0, 0, 0⟩⟩).game.isPlaying = false ∧
    (frameStep (fun _ v => v) ⟨true, 300, 0, 4, 5, "", false⟩
        ⟨⟨0, 0, 0⟩, ⟨0, 2, -75.05⟩, ⟨0, 0, 0⟩⟩ ⟨0, 0, 0, 0⟩ ⟨7, 4, 8⟩ 1 gates false
        ⟨⟨0, 1.6, 5⟩, ⟨0, 0, 0⟩⟩).game.score
      = GameState.score ⟨true, 300, 0, 4, 5, "", false⟩ :=
  final_gate_finishes (fun _ v => v) ⟨true, 300, 0, 4, 5, "", false⟩
    ⟨⟨0, 0, 0⟩, ⟨0, 2, -75.05⟩, ⟨0, 0, 0⟩⟩ ⟨0, 0, 0, 0⟩ ⟨7, 4, 8⟩ 1 gates false
    ⟨⟨0, 1.6, 5⟩, ⟨0, 0, 0⟩⟩ ⟨0, 2, -75⟩ rfl rfl rfl (by norm_num [gates])
    (by norm_num [sqrtLt, enforce, integrate, sqrtGt, Vec3.add, Vec3.smul, Vec3.sub,
      Vec3.normSq, Vec3.distSq, DRAG, THRUST_POWER, ROTATION_SPEED, GATE_DETECTION_RADIUS])

/-- C10: while racing, when no gate exists at `currentGate` (index out of
range or empty course), the frame leaves the whole race state unchanged:
the `undefined` lookup is guarded, not an error. -/
theorem missing_gate_noop (applyE : Euler → Vec3 → Vec3) (gs : GameState)
    (craft : CraftState) (controls : ControlState) (stats : ShipStats)
    (shipScale : ℚ) (gateList : List Vec3) (ar : Bool) (cam : CameraPose)
    (hPlay : gs.isPlaying = true) (hOver : gs.isGameOver = false)
    (hNone : gateList.get? gs.currentGate = none) :
    (frameStep applyE gs craft controls stats shipScale gateList ar cam).game = gs := by
  rw [frameStep_racing applyE gs craft controls stats shipScale gateList ar cam hPlay hOver]
  simp only [gateStep, hNone]

/-- Witness for C10: racing against an empty gate list. -/
theorem missing_gate_noop_witness :
    (frameStep (fun _ v => v) ⟨true, 200, 0, 3, 5, "", false⟩
        ⟨⟨0, 0, 0⟩, ⟨0, 1.5, -8⟩, ⟨0, 0, 0⟩⟩ ⟨0, 0, 0, 0⟩ ⟨7, 4, 8⟩ 1 [] false
        ⟨⟨0, 1.6, 5⟩, ⟨0, 0, 0⟩⟩).game = ⟨true, 200, 0, 3, 5, "", false⟩ :=
  missing_gate_noop (fun _ v => v) ⟨true, 200, 0, 3, 5, "", false⟩
    ⟨⟨0, 0, 0⟩, ⟨0, 1.5, -8⟩, ⟨0, 0, 0⟩⟩ ⟨0, 0, 0, 0⟩ ⟨7, 4, 8⟩ 1 [] false
    ⟨⟨0, 1.6, 5⟩, ⟨0, 0, 0⟩⟩ rfl rfl rfl

/-- C8: one racing frame never decreases `currentGate` or `score`, and
keeps the invariant `currentGate < totalGates` whenever the race is still
in progress afterwards (`totalGates` matching the course length). -/
theorem racing_invariants (applyE : Euler → Vec3 → Vec3) (gs : GameState)
    (craft : CraftState) (controls : ControlState) (stats : ShipStats)
    (shipScale : ℚ) (gateList : List Vec3) (ar : Bool) (cam : CameraPose)
    (hPlay : gs.isPlaying = true) (hOver : gs.isGameOver = false)
    (hTot : gs.totalGates = gateList.length)
    (hLt : gs.currentGate < gs.totalGates) :
    gs.currentGate ≤
      (frameStep applyE gs craft controls stats shipScale gateList ar cam).game.currentGate ∧
    gs.score ≤
      (frameStep applyE gs craft controls stats shipScale gateList ar cam).game.score ∧
    ((frameStep applyE gs craft controls stats shipScale gateList ar cam).game.isPlaying = true →
      (frameStep applyE gs craft controls stats shipScale gateList ar cam).game.isGameOver = false →
      (frameStep applyE gs craft controls stats shipScale gateList ar cam).game.currentGate <
        (frameStep applyE gs craft controls stats shipScale gateList ar cam).game.totalGates) := by
  rw [frameStep_racing applyE gs craft controls stats shipScale gateList ar cam hPlay hOver]
  rcases h : gateList.get? gs.currentGate with _ | g
  · simp only [gateStep, h]
    exact ⟨le_refl _, le_refl _, fun _ _ => hLt⟩
  · have hlen : gs.currentGate < gateList.length := by
      rcases List.get?_eq_some.mp h with ⟨hl, _⟩
      exact hl
    simp only [gateStep, h]
    split_ifs with hd hl
    · refine ⟨le_refl _, le_refl _, fun hp _ => ?_⟩
      simp at hp
    · refine ⟨Nat.le_succ _, Nat.le_add_right _ _, fun _ _ => ?_⟩
      simp only []
      rw [hTot] at hLt ⊢
      omega
    · exact ⟨le_refl _, le_refl _, fun _ _ => hLt⟩

/-- Witness for C8: one frame of the C1 scenario. -/
theorem racing_invariants_witness :
    GameState.currentGate ⟨true, 0, 0, 0, 5, "", false⟩ ≤
      (frameStep (fun _ v => v) ⟨true, 0, 0, 0, 5, "", false⟩
        ⟨⟨0, 0, 0⟩, ⟨0, 1.8, -12.05⟩, ⟨0, 0, 0⟩⟩ ⟨0, 0, 0, 0⟩ ⟨7, 4, 8⟩ 1 gates false
        ⟨⟨0, 1.6, 5⟩, ⟨0, 0, 0⟩⟩).game.currentGate ∧
    GameState.score ⟨true, 0, 0, 0, 5, "", false⟩ ≤
      (frameStep (fun _ v => v) ⟨true, 0, 0, 0, 5, "", false⟩
        ⟨⟨0, 0, 0⟩, ⟨0, 1.8, -12.05⟩, ⟨0, 0, 0⟩⟩ ⟨0, 0, 0, 0⟩ ⟨7, 4, 8⟩ 1 gates false
        ⟨⟨0, 1.6, 5⟩, ⟨0, 0, 0⟩⟩).game.score ∧
    ((frameStep (fun _ v => v) ⟨true, 0, 0, 0, 5, "", false⟩
        ⟨⟨0, 0, 0⟩, ⟨0, 1.8, -12.05⟩, ⟨0, 0, 0⟩⟩ ⟨0, 0, 0, 0⟩ ⟨7, 4, 8⟩ 1 gates false
        ⟨⟨0, 1.6, 5⟩, ⟨0, 0, 0⟩⟩).game.isPlaying = true →
      (frameStep (fun _ v => v) ⟨true, 0, 0, 0, 5, "", false⟩
        ⟨⟨0, 0, 0⟩, ⟨0, 1.8, -12.05⟩, ⟨0, 0, 0⟩⟩ ⟨0, 0, 0, 0⟩ ⟨7, 4, 8⟩ 1 gates false
        ⟨⟨0, 1.6, 5⟩, ⟨0, 0, 0⟩⟩).game.isGameOver = false →
      (frameStep (fun _ v => v) ⟨true, 0, 0, 0, 5, "", false⟩
        ⟨⟨0, 0, 0⟩, ⟨0, 1.8, -12.05⟩, ⟨0, 0, 0⟩⟩ ⟨0, 0, 0, 0⟩ ⟨7, 4, 8⟩ 1 gates false
        ⟨⟨0, 1.6, 5⟩, ⟨0, 0, 0⟩⟩).game.currentGate <
        (frameStep (fun _ v => v) ⟨true, 0, 0, 0, 5, "", false⟩
          ⟨⟨0, 0, 0⟩, ⟨0, 1.8, -12.05⟩, ⟨0, 0, 0⟩⟩ ⟨0, 0, 0, 0⟩ ⟨7, 4, 8⟩ 1 gates false
          ⟨⟨0, 1.6, 5⟩, ⟨0, 0, 0⟩⟩).game.totalGates) :=
  racing_invariants (fun _ v => v) ⟨true, 0, 0, 0, 5, "", false⟩
    ⟨⟨0, 0, 0⟩, ⟨0, 1.8, -12.05⟩, ⟨0, 0, 0⟩⟩ ⟨0, 0, 0, 0⟩ ⟨7, 4, 8⟩ 1 gates false
    ⟨⟨0, 1.6, 5⟩, ⟨0, 0, 0⟩⟩ rfl rfl rfl (by norm_num)

/-- C9: while racing in free mode, the new camera position is the previous
camera position lerped by 0.12 toward the craft position plus the offset
`(0, 1.5, 6)` rotated by the craft's current orientation, and the look-at
target is the raw craft position. -/
theorem free_camera_follow (applyE : Euler → Vec3 → Vec3) (gs : GameState)
    (craft : CraftState) (controls : ControlState) (stats : ShipStats)
    (shipScale : ℚ) (gateList : List Vec3) (cam : CameraPose)
    (hPlay : gs.isPlaying = true) (hOver : gs.isGameOver = false) :
    (frameStep applyE gs craft controls stats shipScale gateList false cam).camera =
      ⟨Vec3.lerp cam.position
        ((enforce (integrate applyE craft controls stats) false).position.add
          (applyE (enforce (integrate applyE craft controls stats) false).rotation
            ⟨0, 1.5, 6⟩)) 0.12,
       (enforce (integrate applyE craft controls stats) false).position⟩ := by
  rw [frameStep_racing applyE gs craft controls stats shipScale gateList false cam hPlay hOver]
  simp [cameraStep]

/-- Witness for C9 at a concrete racing frame. -/
theorem free_camera_follow_witness :
    (frameStep (fun _ v => v) ⟨true, 0, 0, 0, 5, "", false⟩
        ⟨⟨0, 0, 0⟩, ⟨2, 3, -9⟩, ⟨0, 0, 0⟩⟩ ⟨0, 0, 0, 0⟩ ⟨7, 4, 8⟩ 1 gates false
        ⟨⟨0, 1.6, 5⟩, ⟨0, 0, 0⟩⟩).camera =
      ⟨Vec3.lerp ⟨0, 1.6, 5⟩
        ((enforce (integrate (fun _ v => v) ⟨⟨0, 0, 0⟩, ⟨2, 3, -9⟩, ⟨0, 0, 0⟩⟩
            ⟨0, 0, 0, 0⟩ ⟨7, 4, 8⟩) false).position.add
          ((fun (_ : Euler) (v : Vec3) => v)
            (enforce (integrate (fun _ v => v) ⟨⟨0, 0, 0⟩, ⟨2, 3, -9⟩, ⟨0, 0, 0⟩⟩
              ⟨0, 0, 0, 0⟩ ⟨7, 4, 8⟩) false).rotation ⟨0, 1.5, 6⟩)) 0.12,
       (enforce (integrate (fun _ v => v) ⟨⟨0, 0, 0⟩, ⟨2, 3, -9⟩, ⟨0, 0, 0⟩⟩
          ⟨0, 0, 0, 0⟩ ⟨7, 4, 8⟩) false).position⟩ :=
  free_camera_follow (fun _ v => v) ⟨true, 0, 0, 0, 5, "", false⟩
    ⟨⟨0, 0, 0⟩, ⟨2, 3, -9⟩, ⟨0, 0, 0⟩⟩ ⟨0, 0, 0, 0⟩ ⟨7, 4, 8⟩ 1 gates
    ⟨⟨0, 1.6, 5⟩, ⟨0, 0, 0⟩⟩ rfl rfl

/-- C6 counterexample: starting from a finished race with the craft parked
at `(5, 5, 5)`, `handleStart` does not put the craft back at the spawn
pose, so the claim's craft-reset conjunct fails. -/
theorem start_craft_not_reset_cex :
    ¬ ((handleStart ⟨false, 300, 42, 4, 5, "done", true⟩
          ⟨⟨1, 1, 1⟩, ⟨5, 5, 5⟩, ⟨0, 0, 0⟩⟩ "go").1.score = 0 ∧
       (handleStart ⟨false, 300, 42, 4, 5, "done", true⟩
          ⟨⟨1, 1, 1⟩, ⟨5, 5, 5⟩, ⟨0, 0, 0⟩⟩ "go").1.currentGate = 0 ∧
       (handleStart ⟨false, 300, 42, 4, 5, "done", true⟩
          ⟨⟨1, 1, 1⟩, ⟨5, 5, 5⟩, ⟨0, 0, 0⟩⟩ "go").1.isGameOver = false ∧
       (handleStart ⟨false, 300, 42, 4, 5, "done", true⟩
          ⟨⟨1, 1, 1⟩, ⟨5, 5, 5⟩, ⟨0, 0, 0⟩⟩ "go").1.isPlaying = true ∧
       (handleStart ⟨false, 300, 42, 4, 5, "done", true⟩
          ⟨⟨1, 1, 1⟩, ⟨5, 5, 5⟩, ⟨0, 0, 0⟩⟩ "go").2.position = ⟨0, 1.5, -8⟩ ∧
       (handleStart ⟨false, 300, 42, 4, 5, "done", true⟩
          ⟨⟨1, 1, 1⟩, ⟨5, 5, 5⟩, ⟨0, 0, 0⟩⟩ "go").2.velocity = ⟨0, 0, 0⟩) := by
  intro h
  have hp := h.2.2.2.2.1
  norm_num [handleStart] at hp

/-- C6 amended: `handleStart` resets `score`, `currentGate`, `isGameOver`
and sets `isPlaying`, but leaves the craft state (position, velocity,
orientation) untouched — the spawn pose is only the mount-time initial
value of the `GameLoop` refs, never re-applied on start. -/
theorem handleStart_resets_race (gs : GameState) (craft : CraftState) (b : String) :
    (handleStart gs craft b).1.score = 0 ∧
    (handleStart gs craft b).1.currentGate = 0 ∧
    (handleStart gs craft b).1.isGameOver = false ∧
    (handleStart gs craft b).1.isPlaying = true ∧
    (handleStart gs craft b).2 = craft :=
  ⟨rfl, rfl, rfl, rfl, rfl⟩

/-- C7 counterexample: calling `handleStart` in the middle of a race
(playing, not game over, score 100, gate 2) changes the game state — the
score is wiped to 0 — so it is not a no-op. -/
theorem start_while_racing_not_noop_cex :
    (handleStart ⟨true, 100, 7, 2, 5, "mid", false⟩
        ⟨⟨0, 0, 0⟩, ⟨1, 2, 3⟩, ⟨0, 0, 0⟩⟩ "mid").1
      ≠ ⟨true, 100, 7, 2, 5, "mid", false⟩ := by
  intro h
  have hs := congrArg GameState.score h
  norm_num [handleStart] at hs

/-- C7 amended: `handleStart` is unguarded — invoked while already racing
it restarts the race (score and gate index reset to 0, still playing, not
game over) and leaves the craft state unchanged, rather than being a
no-op. -/
theorem handleStart_while_racing_restarts (gs : GameState) (craft : CraftState)
    (b : String) (hPlay : gs.isPlaying = true) (hOver : gs.isGameOver = false) :
    (handleStart gs craft b).1.score = 0 ∧
    (handleStart gs craft b).1.currentGate = 0 ∧
    (handleStart gs craft b).1.isPlaying = true ∧
    (handleStart gs craft b).1.isGameOver = false ∧
    (handleStart gs craft b).2 = craft :=
  ⟨rfl, rfl, rfl, rfl, rfl⟩

/-- Witness for the amended C7 at a concrete mid-race state. -/
theorem handleStart_while_racing_restarts_witness :
    (handleStart ⟨true, 100, 7, 2, 5, "mid", false⟩
        ⟨⟨0, 0, 0⟩, ⟨1, 2, 3⟩, ⟨0, 0, 0⟩⟩ "go").1.score = 0 ∧
    (handleStart ⟨true, 100, 7, 2, 5, "mid", false⟩
        ⟨⟨0, 0, 0⟩, ⟨1, 2, 3⟩, ⟨0, 0, 0⟩⟩ "go").1.currentGate = 0 ∧
    (handleStart ⟨true, 100, 7, 2, 5, "mid", false⟩
        ⟨⟨0, 0, 0⟩, ⟨1, 2, 3⟩, ⟨0, 0, 0⟩⟩ "go").1.isPlaying = true ∧
    (handleStart ⟨true, 100, 7, 2, 5, "mid", false⟩
        ⟨⟨0, 0, 0⟩, ⟨1, 2, 3⟩, ⟨0, 0, 0⟩⟩ "go").1.isGameOver = false ∧
    (handleStart ⟨true, 100, 7, 2, 5, "mid", false⟩
        ⟨⟨0, 0, 0⟩, ⟨1, 2, 3⟩, ⟨0, 0, 0⟩⟩ "go").2
      = ⟨⟨0, 0, 0⟩, ⟨1, 2, 3⟩, ⟨0, 0, 0⟩⟩ :=
  handleStart_while_racing_restarts ⟨true, 100, 7, 2, 5, "mid", false⟩
    ⟨⟨0, 0, 0⟩, ⟨1, 2, 3⟩, ⟨0, 0, 0⟩⟩ "go" rfl rfl

end XRacer
